import Mathlib

/-
Verification development for the aduplanner geometric constraint engine.

The TypeScript source is shallowly embedded below.  Numbers are modelled
as exact rationals, JavaScript values crossing the loose vision-payload
boundary are modelled by an explicit dynamic value type, and the two
external library functions that the engine delegates to are abstracted:
the spherical polygon area (google.maps.geometry.spherical.computeArea)
appears as an explicit function parameter, and the trigonometric helpers
Math.cos / Math.sin composed with degree-to-radian conversion appear as
explicit function parameters cosDeg / sinDeg.
-/

/-! ## JavaScript dynamic-value model -/

/-- Dynamic JavaScript value, as produced by JSON parsing plus the
distinguished undefined value produced by missing-property access. -/
inductive JsVal where
  | undef : JsVal
  | jsNull : JsVal
  | bool : Bool → JsVal
  | num : ℚ → JsVal
  | str : String → JsVal
  | arr : List JsVal → JsVal
  | obj : List (String × JsVal) → JsVal

/-- JavaScript truthiness of a value. -/
def jsTruthy : JsVal → Bool
  | JsVal.undef => false
  | JsVal.jsNull => false
  | JsVal.bool b => b
  | JsVal.num q => !(q == 0)
  | JsVal.str s => !(s == "")
  | JsVal.arr _ => true
  | JsVal.obj _ => true

/-- Property access v.k on a dynamic value: the stored field of an object,
undefined otherwise. -/
def jsGet (v : JsVal) (k : String) : JsVal :=
  match v with
  | JsVal.obj kvs =>
      match kvs.find? (fun kv => kv.1 == k) with
      | some kv => kv.2
      | none => JsVal.undef
  | _ => JsVal.undef

/-- The JavaScript a || b operator on dynamic values. -/
def jsOr (a b : JsVal) : JsVal := if jsTruthy a then a else b

/-- The JavaScript x || d operator applied to an optional number
(a missing or zero value falls through to the default). -/
def jsNumOr (x : Option ℚ) (d : ℚ) : ℚ :=
  match x with
  | some v => if v == 0 then d else v
  | none => d

/-- JavaScript Math.round: round half toward positive infinity. -/
def jsRound (q : ℚ) : ℤ := ⌊q + 1 / 2⌋

/-! ## Geometry primitives (PropertyPlanner ConstraintLayer) -/

/-- A latitude/longitude pair in decimal degrees. -/
structure Coord where
  lat : ℚ
  lng : ℚ
  deriving DecidableEq, Repr

instance : Inhabited Coord := ⟨⟨0, 0⟩⟩

/-- Ring-closing step shared by createPolygon and calculatePolygonArea:
if the path has at least 3 points and the first and last points differ,
append a copy of the first point. -/
def closeRing (path : List Coord) : List Coord :=
  if 3 ≤ path.length ∧ path.head? ≠ path.getLast? then path ++ [path.headI] else path

/-- validateCoordinates from ConstraintLayer: a coordinate list is usable
when it has at least 3 points (the closing performed inside the source
function is on a local copy and has no observable effect). -/
def validateCoordinates (coords : List Coord) : Bool :=
  3 ≤ coords.length

/-- calculatePolygonArea from ConstraintLayer, parametric in the external
spherical-area function A: returns 0 for fewer than 3 points, otherwise
the spherical area of the closed path, in square meters. -/
def calculatePolygonArea (A : List Coord → ℚ) (coords : List Coord) : ℚ :=
  if coords.length < 3 then 0 else A (closeRing coords)

/-! ## Constraint Layer Engine (map/layers/ConstraintLayer) -/

/-- Constraint kind: the ConstraintLayer builds property and structure
polygons (the source field is named type). -/
inductive CKind where
  | property : CKind
  | struct : CKind
  deriving DecidableEq, Repr

/-- A built constraint: kind, area in square meters, the source
coordinates, and the closed path handed to the display polygon. -/
structure Constraint where
  type : CKind
  area : ℚ
  coordinates : List Coord
  polygonPath : List Coord
  deriving DecidableEq, Repr

/-- createPolygon from ConstraintLayer: validate, close the ring for the
display polygon, compute the area of the (closed) coordinates, and return
the constraint record; invalid coordinate lists yield none. -/
def createPolygon (A : List Coord → ℚ) (coords : List Coord) (t : CKind) : Option Constraint :=
  if validateCoordinates coords then
    some { type := t
           area := calculatePolygonArea A coords
           coordinates := coords
           polygonPath := closeRing coords }
  else none

/-- One detected boundary of the constraint analysis input. -/
structure BoundaryRec where
  coordinates : List Coord
  deriving DecidableEq, Repr

/-- One detected structure of the constraint analysis input. -/
structure StructureRec where
  stype : String
  coordinates : List Coord
  deriving DecidableEq, Repr

/-- The constraintAnalysis prop consumed by ConstraintLayer. -/
structure ConstraintAnalysisData where
  property_boundaries : List BoundaryRec
  structures : List StructureRec
  deriving DecidableEq, Repr

/-- The rebuild effect of ConstraintLayer: one property constraint from
the first boundary (when present and valid), then one structure
constraint per valid structure; invalid rings are skipped. -/
def rebuildConstraints (A : List Coord → ℚ) (ca : ConstraintAnalysisData) : List Constraint :=
  (match ca.property_boundaries.head? with
   | some b => (createPolygon A b.coordinates CKind.property).toList
   | none => []) ++
  ca.structures.filterMap (fun s => createPolygon A s.coordinates CKind.struct)

/-- propertyArea of the rebuilt set: the area of the property constraint,
through the JavaScript find(...)?.area || 0 expression. -/
def propertyAreaOf (cs : List Constraint) : ℚ :=
  jsNumOr ((cs.find? (fun c => c.type == CKind.property)).map Constraint.area) 0

/-- Sum of the areas of all structure constraints. -/
def structureAreasOf (cs : List Constraint) : ℚ :=
  ((cs.filter (fun c => c.type == CKind.struct)).map Constraint.area).sum

/-- The buildable-area aggregate computed by ConstraintLayer. -/
def buildableAreaOf (cs : List Constraint) : ℚ :=
  max 0 (propertyAreaOf cs - structureAreasOf cs)

/-- The aggregate handed to the onConstraintsReady observer: the source
invokes the callback unconditionally at the end of every rebuild, so a
value is always reported. -/
def reportedAggregate (A : List Coord → ℚ) (ca : ConstraintAnalysisData) : Option ℚ :=
  some (buildableAreaOf (rebuildConstraints A ca))

/-- Modelled from the spec: the aggregate reporting rule as the spec
states it, namely report max(0, propertyArea - sum(structureAreas)) when
a property boundary is present and report nothing at all when no
property boundary is present. -/
def specReportedAggregate (A : List Coord → ℚ) (ca : ConstraintAnalysisData) : Option ℚ :=
  match ca.property_boundaries.head? with
  | some _ => some (buildableAreaOf (rebuildConstraints A ca))
  | none => none

/-! ## Alternate aggregate mode (vision-analysis ConstraintLayer variant) -/

/-- First match of the regular expression (\d+) in a string: the first
maximal run of decimal digits, or none. -/
def firstDigitRun (s : String) : Option (List Char) :=
  match s.toList.dropWhile (fun c => !c.isDigit) with
  | [] => none
  | c :: cs => some ((c :: cs).takeWhile Char.isDigit)

/-- Decimal value of a digit list. -/
def digitsToNat (ds : List Char) : ℕ :=
  ds.foldl (fun n c => 10 * n + (c.toNat - 48)) 0

/-- parseInt applied to the matched digit group of BuildableArea. -/
def altBuildableArea (s : String) : Option ℕ :=
  (firstDigitRun s).map digitsToNat

/-- The value handed to onConstraintsReady by the vision-analysis
ConstraintLayer variant: buildableArea || totalConstrainedArea * 0.6,
where buildableArea is the parsed numeric value (null when no digits
matched).  The literal 0.6 is modelled as the exact rational 6/10. -/
def altAggregateReport (s : String) (totalConstrainedArea : ℚ) : ℚ :=
  match altBuildableArea s with
  | some v => if v == 0 then totalConstrainedArea * (6 / 10) else (v : ℚ)
  | none => totalConstrainedArea * (6 / 10)

/-! ## Building footprint rings -/

/-- latFeetToDegrees from StructureVisualizer: one foot is 1/364000
degree of latitude. -/
def latFeetToDegrees (feet : ℚ) : ℚ := feet / 364000

/-- lngFeetToDegrees from StructureVisualizer, parametric in the external
cosine-of-degrees function. -/
def lngFeetToDegrees (cosDeg : ℚ → ℚ) (posLat : ℚ) (feet : ℚ) : ℚ :=
  feet / (364000 * cosDeg posLat)

/-- getCorners from StructureVisualizer: four unrotated corners around
the position from half width and half length, rotated about the position
when the rotation is nonzero.  cosDeg and sinDeg stand for Math.cos and
Math.sin composed with degree-to-radian conversion. -/
def getCorners (cosDeg sinDeg : ℚ → ℚ) (pos : Coord) (width length rotation : ℚ) :
    List Coord :=
  let halfWidth := width / 2
  let halfLength := length / 2
  let corners : List Coord :=
    [⟨pos.lat + latFeetToDegrees halfWidth, pos.lng - lngFeetToDegrees cosDeg pos.lat halfLength⟩,
     ⟨pos.lat + latFeetToDegrees halfWidth, pos.lng + lngFeetToDegrees cosDeg pos.lat halfLength⟩,
     ⟨pos.lat - latFeetToDegrees halfWidth, pos.lng + lngFeetToDegrees cosDeg pos.lat halfLength⟩,
     ⟨pos.lat - latFeetToDegrees halfWidth, pos.lng - lngFeetToDegrees cosDeg pos.lat halfLength⟩]
  if rotation ≠ 0 then
    corners.map (fun c =>
      let dx := c.lng - pos.lng
      let dy := c.lat - pos.lat
      ⟨pos.lat + (dy * cosDeg rotation - dx * sinDeg rotation),
       pos.lng + (dx * cosDeg rotation + dy * sinDeg rotation)⟩)
  else corners

/-- calculateBuildingPolygon from PropertyMap: feet are converted with
the flat constant 0.00000274 on both axes, the four corners are rotated
about the center, and the ring is closed by appending the first rotated
corner. -/
def calculateBuildingPolygon (cosDeg sinDeg : ℚ → ℚ) (center : Coord)
    (widthFt lengthFt rotation : ℚ) : List Coord :=
  let feetToLatLng : ℚ := 274 / 100000000
  let width := widthFt * feetToLatLng
  let length := lengthFt * feetToLatLng
  let points : List Coord :=
    [⟨center.lat - width / 2, center.lng - length / 2⟩,
     ⟨center.lat - width / 2, center.lng + length / 2⟩,
     ⟨center.lat + width / 2, center.lng + length / 2⟩,
     ⟨center.lat + width / 2, center.lng - length / 2⟩]
  let rotated := points.map (fun p =>
    let dx := p.lng - center.lng
    let dy := p.lat - center.lat
    ⟨center.lat + (dy * cosDeg rotation - dx * sinDeg rotation),
     center.lng + (dx * cosDeg rotation + dy * sinDeg rotation)⟩)
  rotated ++ [rotated.headI]

/-! ## Boundary Edit Session (PropertyMap state) -/

/-- Square-feet display value computed from a marker list: the external
spherical area times 10.764, rounded.  Used by handleMarkerDrag and by
the AI detection handler. -/
def sqFtRounded (A : List Coord → ℚ) (markers : List Coord) : ℤ :=
  jsRound (A markers * (10764 / 1000))

/-- The boundary-related PropertyMap state. -/
structure BoundaryState where
  boundaryPath : List Coord
  cornerMarkers : List Coord
  isBoundaryLocked : Bool
  boundaryFromAI : Bool
  measurementsArea : Option ℤ
  deriving DecidableEq, Repr

/-- The state after mounting: everything reset. -/
def initialBoundaryState : BoundaryState :=
  { boundaryPath := []
    cornerMarkers := []
    isBoundaryLocked := false
    boundaryFromAI := false
    measurementsArea := none }

/-- Translated corner markers used by the whole-boundary drag handler. -/
def dragMarkers (s : BoundaryState) (dlat dlng : ℚ) : List Coord :=
  s.cornerMarkers.map (fun c => ⟨c.lat + dlat, c.lng + dlng⟩)

/-- One observable transition of the boundary state, parametric in the
external spherical-area function A (the map library is modelled as
loaded).  Each constructor embeds one PropertyMap handler. -/
inductive BStep (A : List Coord → ℚ) : BoundaryState → BoundaryState → Prop where
  | boundaryComplete (s : BoundaryState) (path : List Coord) (h : path ≠ []) :
      BStep A s { s with cornerMarkers := path.take 4
                         boundaryPath := path.take 4 ++ [path.headI] }
  | measurementUpdate (s : BoundaryState) (m : Option ℤ) :
      BStep A s { s with measurementsArea := m }
  | aiDetect (s : BoundaryState) (cs : List Coord) (h : cs ≠ []) :
      BStep A s { boundaryPath := cs ++ [cs.headI]
                  cornerMarkers := cs
                  isBoundaryLocked := true
                  boundaryFromAI := true
                  measurementsArea := some (sqFtRounded A cs) }
  | lockBoundary (s : BoundaryState) :
      BStep A s { s with isBoundaryLocked := true }
  | unlockBoundary (s : BoundaryState) :
      BStep A s { s with isBoundaryLocked := false }
  | markerDrag (s : BoundaryState) (i : ℕ) (p : Coord) (hi : i < s.cornerMarkers.length) :
      BStep A s { s with cornerMarkers := s.cornerMarkers.set i p
                         boundaryPath := s.cornerMarkers.set i p ++ [(s.cornerMarkers.set i p).headI]
                         measurementsArea :=
                           if s.boundaryFromAI then some (sqFtRounded A (s.cornerMarkers.set i p))
                           else s.measurementsArea }
  | dragBoundary (s : BoundaryState) (dlat dlng : ℚ) (h : 2 < s.cornerMarkers.length) :
      BStep A s { s with cornerMarkers := dragMarkers s dlat dlng
                         boundaryPath := dragMarkers s dlat dlng ++ [(dragMarkers s dlat dlng).headI] }
  | clearDrawing (s : BoundaryState) :
      BStep A s { s with boundaryPath := []
                         cornerMarkers := []
                         measurementsArea := none
                         boundaryFromAI := false }

/-- States reachable from the freshly mounted component. -/
inductive BReachable (A : List Coord → ℚ) : BoundaryState → Prop where
  | init : BReachable A initialBoundaryState
  | step (s s' : BoundaryState) : BReachable A s → BStep A s s' → BReachable A s'

/-! ## Vision request orchestrators (lib/ConstraintAnalysis, lib/visionAnalysis) -/

/-- A fetch response as observed by the orchestrators: the ok flag
(2xx status), the status text, and the parsed JSON body. -/
structure FetchResponse where
  ok : Bool
  statusText : String
  body : JsVal

/-- analyzeConstraints from lib/ConstraintAnalysis: a non-ok response
throws the fixed message, an ok response resolves with body.processed. -/
def analyzeConstraintsResult (resp : FetchResponse) : Except String JsVal :=
  if !resp.ok then Except.error "Failed to analyze constraints"
  else Except.ok (jsGet resp.body ("processed"))

/-- The default analysis result returned by analyzePropertyImage when
anything goes wrong. -/
def defaultVisionResult : JsVal :=
  JsVal.obj
    [("raw", JsVal.str ""),
     ("processed", JsVal.obj
       [("propertyType", JsVal.str "unknown"),
        ("confidence", JsVal.num 0),
        ("structures", JsVal.arr []),
        ("setbacks", JsVal.obj
          [("front", JsVal.num 0), ("back", JsVal.num 0),
           ("left", JsVal.num 0), ("right", JsVal.num 0),
           ("notes", JsVal.arr [])]),
        ("buildableAreas", JsVal.arr []),
        ("terrain", JsVal.obj
          [("description", JsVal.str ""), ("concerns", JsVal.arr []),
           ("opportunities", JsVal.arr [])]),
        ("access", JsVal.obj
          [("bestRoutes", JsVal.arr []), ("privacyFeatures", JsVal.arr []),
           ("challenges", JsVal.arr [])]),
        ("constructionSuitability", JsVal.obj
          [("bestLocations", JsVal.arr []), ("generalNotes", JsVal.arr [])])])]

/-- The response-shape validation performed by analyzePropertyImage. -/
def visionShapeValid (v : JsVal) : Bool :=
  jsTruthy (jsGet v ("processed")) &&
  jsTruthy (jsGet (jsGet v ("processed")) ("structures")) &&
  jsTruthy (jsGet (jsGet v ("processed")) ("setbacks")) &&
  jsTruthy (jsGet (jsGet v ("processed")) ("buildableAreas")) &&
  jsTruthy (jsGet (jsGet v ("processed")) ("terrain")) &&
  jsTruthy (jsGet (jsGet v ("processed")) ("access")) &&
  jsTruthy (jsGet (jsGet v ("processed")) ("constructionSuitability"))

/-- analyzePropertyImage from lib/visionAnalysis: every failure path
(non-ok response or invalid shape) is caught and replaced by the default
result, so the caller always receives a resolved value. -/
def analyzePropertyImageResult (resp : FetchResponse) : JsVal :=
  if !resp.ok then defaultVisionResult
  else if visionShapeValid resp.body then resp.body
  else defaultVisionResult

/-! ## Constraint Normalizer (app/api/vision/analyze/route POST) -/

/-- The processed object built by the analyze route from the parsed
model output: snake_case keys win by JavaScript ||, collections default
to the empty array. -/
def processedOf (parsed : JsVal) : JsVal :=
  JsVal.obj
    [("propertyBoundary", jsOr (jsGet parsed ("property_boundary")) (jsGet parsed ("propertyBoundary"))),
     ("structures", jsOr (jsGet parsed ("structures")) (JsVal.arr [])),
     ("setbacks", jsOr (jsGet parsed ("setbacks")) (JsVal.arr [])),
     ("buildableAreas", jsOr (jsGet parsed ("buildable_areas"))
        (jsOr (jsGet parsed ("buildableAreas")) (JsVal.arr [])))]

/-! ## JSON parsing model (JSON.parse and the extraction fallbacks) -/

/-- JSON whitespace. -/
def isBlank (c : Char) : Bool :=
  c == ' ' || c == '\n' || c == '\t' || c == '\r'

/-- Skip leading JSON whitespace. -/
def skipBlanks : List Char → List Char
  | [] => []
  | c :: cs => if isBlank c then skipBlanks cs else c :: cs

/-- Expect a fixed character sequence. -/
def expectLit : List Char → List Char → Option (List Char)
  | [], cs => some cs
  | _ :: _, [] => none
  | e :: es, c :: cs => if c = e then expectLit es cs else none

/-- Translate a JSON escape character. -/
def unescapeChar (c : Char) : Char :=
  if c = 'n' then '\n' else if c = 't' then '\t' else if c = 'r' then '\r' else c

/-- Parse the body of a JSON string after the opening quote; returns the
characters and the remainder after the closing quote. -/
def jsonStrBody (fuel : ℕ) (cs : List Char) : Option (List Char × List Char) :=
  match fuel, cs with
  | 0, _ => none
  | _, [] => none
  | f + 1, c :: rest =>
    if c = '"' then some ([], rest)
    else if c = '\\' then
      match rest with
      | [] => none
      | e :: rest2 => (jsonStrBody f rest2).map (fun p => (unescapeChar e :: p.1, p.2))
    else (jsonStrBody f rest).map (fun p => (c :: p.1, p.2))

/-- Parse a JSON number (integer or decimal fraction). -/
def jsonNum (cs : List Char) : Option (ℚ × List Char) :=
  let sr : Bool × List Char :=
    match cs with
    | '-' :: rest => (true, rest)
    | _ => (false, cs)
  let ds := sr.2.takeWhile Char.isDigit
  let rest := sr.2.dropWhile Char.isDigit
  if ds = [] then none
  else
    match rest with
    | '.' :: rest2 =>
      let fs := rest2.takeWhile Char.isDigit
      let rest3 := rest2.dropWhile Char.isDigit
      if fs = [] then none
      else
        let q : ℚ := (digitsToNat ds : ℚ) + (digitsToNat fs : ℚ) / ((10 : ℚ) ^ fs.length)
        some (if sr.1 then -q else q, rest3)
    | _ => some (if sr.1 then -(digitsToNat ds : ℚ) else (digitsToNat ds : ℚ), rest)

mutual

/-- Parse one JSON value (fuelled). -/
def jsonVal : ℕ → List Char → Option (JsVal × List Char)
  | 0, _ => none
  | f + 1, cs =>
    match skipBlanks cs with
    | [] => none
    | c :: rest =>
      if c = 'n' then (expectLit ['u', 'l', 'l'] rest).map (fun r => (JsVal.jsNull, r))
      else if c = 't' then (expectLit ['r', 'u', 'e'] rest).map (fun r => (JsVal.bool true, r))
      else if c = 'f' then (expectLit ['a', 'l', 's', 'e'] rest).map (fun r => (JsVal.bool false, r))
      else if c = '"' then
        (jsonStrBody rest.length rest).map (fun p => (JsVal.str (String.mk p.1), p.2))
      else if c = '-' || c.isDigit then (jsonNum (c :: rest)).map (fun p => (JsVal.num p.1, p.2))
      else if c = '[' then
        match skipBlanks rest with
        | ']' :: r2 => some (JsVal.arr [], r2)
        | r2 => (jsonArrItems f r2).map (fun p => (JsVal.arr p.1, p.2))
      else if c = '\x7b' then
        match skipBlanks rest with
        | '\x7d' :: r2 => some (JsVal.obj [], r2)
        | r2 => (jsonObjItems f r2).map (fun p => (JsVal.obj p.1, p.2))
      else none

/-- Parse the elements of a JSON array after the opening bracket. -/
def jsonArrItems : ℕ → List Char → Option (List JsVal × List Char)
  | 0, _ => none
  | f + 1, cs =>
    match jsonVal f cs with
    | none => none
    | some (v, r1) =>
      match skipBlanks r1 with
      | ']' :: r2 => some ([v], r2)
      | ',' :: r2 => (jsonArrItems f r2).map (fun p => (v :: p.1, p.2))
      | _ => none

/-- Parse the members of a JSON object after the opening brace. -/
def jsonObjItems : ℕ → List Char → Option (List (String × JsVal) × List Char)
  | 0, _ => none
  | f + 1, cs =>
    match skipBlanks cs with
    | '"' :: r1 =>
      match jsonStrBody r1.length r1 with
      | none => none
      | some (k, r2) =>
        match skipBlanks r2 with
        | ':' :: r3 =>
          match jsonVal f r3 with
          | none => none
          | some (v, r4) =>
            match skipBlanks r4 with
            | '\x7d' :: r5 => some ([(String.mk k, v)], r5)
            | ',' :: r5 => (jsonObjItems f r5).map (fun p => ((String.mk k, v) :: p.1, p.2))
            | _ => none
        | _ => none
    | _ => none

end

/-- JSON.parse: one value followed by nothing but whitespace. -/
def jsonParse (s : String) : Option JsVal :=
  match jsonVal (2 * s.length + 2) s.toList with
  | some (v, rest) => if skipBlanks rest = [] then some v else none
  | none => none

/-- Drop everything before the first opening brace. -/
def dropToOpen : List Char → List Char
  | [] => []
  | c :: cs => if c = '\x7b' then c :: cs else dropToOpen cs

/-- Keep everything up to the last closing brace, or none when there is
no closing brace. -/
def keepToLastClose (l : List Char) : Option (List Char) :=
  match l.reverse.dropWhile (fun c => !(c = '\x7d')) with
  | [] => none
  | c :: cs => some (c :: cs).reverse

/-- The substring matched by the greedy regular expression used by the
analyze route: from the first opening brace to the last closing brace. -/
def extractGreedy (s : String) : Option String :=
  match dropToOpen s.toList with
  | [] => none
  | c :: cs => (keepToLastClose (c :: cs)).map String.mk

/-- Depth-counting scan used by the balanced-block model. -/
def balancedFrom (d : ℕ) (acc : List Char) : List Char → Option (List Char)
  | [] => none
  | c :: cs =>
    if c = '\x7b' then balancedFrom (d + 1) (c :: acc) cs
    else if c = '\x7d' then
      if d = 1 then some (c :: acc).reverse else balancedFrom (d - 1) (c :: acc) cs
    else balancedFrom d (c :: acc) cs

/-- Modelled from the spec: extraction of the first balanced brace block
of the text, the best-effort extraction the spec describes. -/
def specExtractBalanced (s : String) : Option String :=
  match dropToOpen s.toList with
  | [] => none
  | c :: cs => (balancedFrom 0 [] (c :: cs)).map String.mk

/-- Response-body parsing of the main analyze route: direct JSON.parse,
then JSON.parse of the greedy brace-to-brace substring; none means the
request fails with the malformed-response error. -/
def parseResponse (content : String) : Option JsVal :=
  match jsonParse content with
  | some v => some v
  | none =>
    match extractGreedy content with
    | none => none
    | some sub => jsonParse sub

/-- Modelled from the spec: the parsing rule as the spec states it, with
the best-effort extraction being the first balanced brace block. -/
def specParseResponse (content : String) : Option JsVal :=
  match jsonParse content with
  | some v => some v
  | none =>
    match specExtractBalanced content with
    | none => none
    | some sub => jsonParse sub

/-- Removal of a leading three-backtick json fence line, when present
(the first alternative of the fence-stripping replace). -/
def stripFenceL (l : List Char) : List Char :=
  if l.take 8 = "```json\n".toList then l.drop 8 else l

/-- Removal of a trailing three-backtick fence, when present (the second
alternative of the fence-stripping replace). -/
def stripFenceR (l : List Char) : List Char :=
  if ("\n```".toList).isSuffixOf l then (l.reverse.drop 4).reverse else l

/-- Fence stripping of the second route variant: remove a leading
three-backtick json fence line and a trailing fence, when present. -/
def stripFence (s : String) : String :=
  String.mk (stripFenceR (stripFenceL s.toList))

/-- Response-body parsing of the second route variant: strip the fence,
then direct JSON.parse only (no embedded-block extraction). -/
def parseResponseAlt (content : String) : Option JsVal :=
  jsonParse (stripFence content)

/-! ## Concrete instances used by the counterexamples and witnesses -/

/-- A concrete stand-in for the external spherical-area function: the
number of points of the path. -/
def areaLen : List Coord → ℚ := fun r => (r.length : ℚ)

/-- A concrete stand-in spherical-area function with constant value 100
square meters. -/
def area100 : List Coord → ℚ := fun _ => 100

/-- Stand-in cosine used at rotation 0 only, where Math.cos returns 1. -/
def cosOne : ℚ → ℚ := fun _ => 1

/-- Stand-in sine used at rotation 0 only, where Math.sin returns 0. -/
def sinZero : ℚ → ℚ := fun _ => 0

/-- An open triangle ring. -/
def triCoords : List Coord := [⟨0, 0⟩, ⟨0, 1⟩, ⟨1, 1⟩]

/-- An open quadrilateral ring. -/
def quadCoords : List Coord := [⟨0, 0⟩, ⟨0, 1⟩, ⟨1, 1⟩, ⟨1, 0⟩]

/-- An already closed quadrilateral ring (first point repeated last). -/
def closedQuad : List Coord := [⟨0, 0⟩, ⟨0, 1⟩, ⟨1, 1⟩, ⟨0, 0⟩]

/-- Five distinct coordinates, as an AI answer with five corners. -/
def fiveCoords : List Coord := [⟨1, 1⟩, ⟨2, 2⟩, ⟨3, 3⟩, ⟨4, 4⟩, ⟨5, 5⟩]

/-- Constraint analysis input with no property boundary and two
structures. -/
def caNoBoundary : ConstraintAnalysisData :=
  { property_boundaries := []
    structures := [⟨"garage", triCoords⟩, ⟨"shed", quadCoords⟩] }

/-- Constraint analysis input with one property boundary and one
structure. -/
def caWithBoundary : ConstraintAnalysisData :=
  { property_boundaries := [⟨quadCoords⟩]
    structures := [⟨"garage", triCoords⟩] }

/-- The property constraint that rebuilding caWithBoundary creates under
the area100 stand-in. -/
def propertyConstraint100 : Constraint :=
  { type := CKind.property
    area := calculatePolygonArea area100 quadCoords
    coordinates := quadCoords
    polygonPath := closeRing quadCoords }

/-- The structure constraint that rebuilding caWithBoundary creates under
the area100 stand-in. -/
def structureConstraint100 : Constraint :=
  { type := CKind.struct
    area := calculatePolygonArea area100 triCoords
    coordinates := triCoords
    polygonPath := closeRing triCoords }

/-- The boundary state produced by AI detection of fiveCoords from the
initial state. -/
def aiFiveState : BoundaryState :=
  { boundaryPath := fiveCoords ++ [fiveCoords.headI]
    cornerMarkers := fiveCoords
    isBoundaryLocked := true
    boundaryFromAI := true
    measurementsArea := some (sqFtRounded areaLen fiveCoords) }

/-- A failure response of the vision service: non-2xx with an error
body. -/
def failureResponse : FetchResponse :=
  { ok := false
    statusText := "Internal Server Error"
    body := JsVal.obj [("error", JsVal.str "quota exceeded")] }

instance : Inhabited Constraint :=
  ⟨{ type := CKind.property, area := 0, coordinates := [], polygonPath := [] }⟩

/-- A parsed payload with a property boundary and no optional fields. -/
def parsedNoOptionals : JsVal :=
  JsVal.obj [("property_boundary", JsVal.obj [("coordinates", JsVal.arr [])])]

/-- A parsed payload carrying both the snake and the camel key, with a
non-null falsy snake value. -/
def parsedBothKeys : JsVal :=
  JsVal.obj
    [("property_boundary", JsVal.num 0),
     ("propertyBoundary", JsVal.obj [("coordinates", JsVal.arr [])])]

/-- A response body holding two JSON objects separated by text. -/
def mixedContent : String := "\x7b\"a\":1\x7d \x7b\"b\":2\x7d"

/-- A simple JSON object body. -/
def sampleObjectText : String := "\x7b\"a\":1\x7d"

/-! ## Helper lemmas -/

theorem headI_of_ne_nil {R : List Coord} (h : R ≠ []) : R.head? = some R.headI := by
  cases R with
  | nil => exact absurd rfl h
  | cons a l => rfl

theorem createPolygon_some (A : List Coord → ℚ) (coords : List Coord) (t : CKind)
    (c : Constraint) (h : createPolygon A coords t = some c) :
    3 ≤ c.coordinates.length ∧ c.area = calculatePolygonArea A c.coordinates ∧
    c.polygonPath = closeRing c.coordinates ∧ c.type = t := by
  unfold createPolygon at h
  by_cases hv : validateCoordinates coords
  · rw [if_pos hv] at h
    have := Option.some.inj h
    subst this
    exact ⟨by simpa [validateCoordinates] using hv, rfl, rfl, rfl⟩
  · rw [if_neg hv] at h
    exact absurd h (by simp)

theorem calculatePolygonArea_nonneg (A : List Coord → ℚ) (hA : ∀ r, 0 ≤ A r)
    (coords : List Coord) : 0 ≤ calculatePolygonArea A coords := by
  unfold calculatePolygonArea
  split
  · exact le_refl 0
  · exact hA _

theorem rebuild_mem_spec (A : List Coord → ℚ) (ca : ConstraintAnalysisData)
    (c : Constraint) (hc : c ∈ rebuildConstraints A ca) :
    3 ≤ c.coordinates.length ∧ c.area = calculatePolygonArea A c.coordinates ∧
    c.polygonPath = closeRing c.coordinates := by
  unfold rebuildConstraints at hc
  rw [List.mem_append] at hc
  rcases hc with hc | hc
  · rcases hb : ca.property_boundaries.head? with _ | b
    · rw [hb] at hc
      simp at hc
    · rw [hb] at hc
      rw [Option.mem_toList, Option.mem_def] at hc
      exact ⟨(createPolygon_some A _ _ c hc).1, (createPolygon_some A _ _ c hc).2.1,
        (createPolygon_some A _ _ c hc).2.2.1⟩
  · rw [List.mem_filterMap] at hc
    rcases hc with ⟨s, _, hs⟩
    exact ⟨(createPolygon_some A _ _ c hs).1, (createPolygon_some A _ _ c hs).2.1,
      (createPolygon_some A _ _ c hs).2.2.1⟩

theorem rebuild_no_property (A : List Coord → ℚ) (ca : ConstraintAnalysisData)
    (h : ca.property_boundaries = []) :
    propertyAreaOf (rebuildConstraints A ca) = 0 := by
  unfold propertyAreaOf
  have hfind : (rebuildConstraints A ca).find? (fun c => c.type == CKind.property) = none := by
    rw [List.find?_eq_none]
    intro c hc
    unfold rebuildConstraints at hc
    rw [h] at hc
    simp only [List.head?_nil, List.nil_append] at hc
    rw [List.mem_filterMap] at hc
    rcases hc with ⟨s, _, hs⟩
    have ht := (createPolygon_some A _ _ c hs).2.2.2
    simp [ht]
  rw [hfind]
  rfl

theorem structureAreas_nonneg (A : List Coord → ℚ) (hA : ∀ r, 0 ≤ A r)
    (cs : List Constraint)
    (hmem : ∀ c ∈ cs, c.area = calculatePolygonArea A c.coordinates) :
    0 ≤ structureAreasOf cs := by
  unfold structureAreasOf
  apply List.sum_nonneg
  intro a ha
  rw [List.mem_map] at ha
  rcases ha with ⟨c, hc, rfl⟩
  rw [hmem c (List.mem_of_mem_filter hc)]
  exact calculatePolygonArea_nonneg A hA _

theorem reportedAggregate_no_boundary (A : List Coord → ℚ) (hA : ∀ r, 0 ≤ A r)
    (ca : ConstraintAnalysisData) (h : ca.property_boundaries = []) :
    reportedAggregate A ca = some 0 := by
  unfold reportedAggregate buildableAreaOf
  rw [rebuild_no_property A ca h]
  have hs : 0 ≤ structureAreasOf (rebuildConstraints A ca) :=
    structureAreas_nonneg A hA _ (fun c hc => (rebuild_mem_spec A ca c hc).2.1)
  have hle : (0 : ℚ) - structureAreasOf (rebuildConstraints A ca) ≤ 0 := by linarith
  rw [max_eq_left hle]

/-- Claim C9: closeRing appends a copy of the first point to a ring of
at least 3 points whose first and last points differ, increasing the
length by one; closeRing is idempotent on such rings; a ring whose first
and last points already match is returned unchanged. -/
theorem closeRing_correct (R : List Coord) :
    (3 ≤ R.length → R.head? ≠ R.getLast? →
      closeRing R = R ++ [R.headI] ∧ (closeRing R).length = R.length + 1 ∧
      closeRing (closeRing R) = closeRing R) ∧
    (R.head? = R.getLast? → closeRing R = R) := by
  constructor
  · intro h3 hne
    have hR : R ≠ [] := by
      intro h
      subst h
      simp at h3
    have heq : closeRing R = R ++ [R.headI] := by
      unfold closeRing
      rw [if_pos ⟨h3, hne⟩]
    refine ⟨heq, ?_, ?_⟩
    · rw [heq]
      simp
    · have hhead : (R ++ [R.headI]).head? = some R.headI := by
        obtain ⟨a, l, rfl⟩ := List.exists_cons_of_ne_nil hR
        rfl
      have hlast : (R ++ [R.headI]).getLast? = some R.headI := by
        simp
      have hnc : ¬(3 ≤ (R ++ [R.headI]).length ∧
          (R ++ [R.headI]).head? ≠ (R ++ [R.headI]).getLast?) :=
        fun hcond => hcond.2 (hhead.trans hlast.symm)
      rw [heq]
      unfold closeRing
      rw [if_neg hnc]
  · intro h
    have hnc : ¬(3 ≤ R.length ∧ R.head? ≠ R.getLast?) := fun hcond => hcond.2 h
    unfold closeRing
    rw [if_neg hnc]

/-- Witness for closeRing_correct at concrete rings. -/
theorem closeRing_correct_witness :
    (closeRing triCoords = triCoords ++ [(⟨0, 0⟩ : Coord)] ∧
      (closeRing triCoords).length = 3 + 1 ∧
      closeRing (closeRing triCoords) = closeRing triCoords) ∧
    closeRing closedQuad = closedQuad := by
  constructor
  · exact (closeRing_correct triCoords).1 (by decide) (by decide)
  · exact (closeRing_correct closedQuad).2 (by decide)

/-- Claim C1 (amended): the rebuild always reports an aggregate equal to
max(0, propertyArea - sum(structureAreas)); when no property boundary is
present the reported aggregate is 0 (the engine substitutes 0 rather
than omitting the report). -/
theorem rebuild_aggregate_report (A : List Coord → ℚ) (hA : ∀ r, 0 ≤ A r)
    (ca : ConstraintAnalysisData) :
    reportedAggregate A ca =
      some (max 0 (propertyAreaOf (rebuildConstraints A ca) -
        structureAreasOf (rebuildConstraints A ca))) ∧
    (ca.property_boundaries = [] → reportedAggregate A ca = some 0) := by
  exact ⟨rfl, fun h => reportedAggregate_no_boundary A hA ca h⟩

/-- Witness for rebuild_aggregate_report at a concrete input. -/
theorem rebuild_aggregate_report_witness :
    reportedAggregate areaLen caNoBoundary =
      some (max 0 (propertyAreaOf (rebuildConstraints areaLen caNoBoundary) -
        structureAreasOf (rebuildConstraints areaLen caNoBoundary))) ∧
    (caNoBoundary.property_boundaries = [] → reportedAggregate areaLen caNoBoundary = some 0) :=
  rebuild_aggregate_report areaLen (fun r => by simp [areaLen]) caNoBoundary

/-- Claim C1 is refuted on the code: with no property boundary and two
structures the engine still reports an aggregate, namely 0, while the
claim demands that nothing be reported. -/
theorem rebuild_reports_zero_without_boundary :
    reportedAggregate areaLen caNoBoundary = some 0 ∧
    specReportedAggregate areaLen caNoBoundary = none ∧
    (some (0 : ℚ) ≠ (none : Option ℚ)) := by
  refine ⟨?_, rfl, by simp⟩
  exact reportedAggregate_no_boundary areaLen (fun r => by simp [areaLen]) caNoBoundary rfl

/-! ## C2: boundary edit session -/

/-- Claim C2 (amended): in every reachable state of the boundary edit
session, either the path is empty, or the corner list is nonempty and
the path is the corner list with its first element appended (appended
unconditionally, not via closeRing); the corner count is not restricted
to 0 or 4. -/
theorem boundary_session_invariant (A : List Coord → ℚ) (s : BoundaryState)
    (h : BReachable A s) :
    s.boundaryPath = [] ∨
      (s.cornerMarkers ≠ [] ∧
        s.boundaryPath = s.cornerMarkers ++ [s.cornerMarkers.headI]) := by
  induction h with
  | init => exact Or.inl rfl
  | step s s' hr hstep ih =>
    cases hstep with
    | boundaryComplete path hp =>
      right
      obtain ⟨a, l, rfl⟩ := List.exists_cons_of_ne_nil hp
      constructor
      · simp
      · simp
    | measurementUpdate m => exact ih
    | aiDetect cs hcs =>
      exact Or.inr ⟨hcs, rfl⟩
    | lockBoundary => exact ih
    | unlockBoundary => exact ih
    | markerDrag i p hi =>
      right
      refine ⟨?_, rfl⟩
      intro hnil
      rw [← List.length_eq_zero] at hnil
      rw [List.length_set] at hnil
      omega
    | dragBoundary dlat dlng hlen =>
      right
      refine ⟨?_, rfl⟩
      intro hnil
      have : s.cornerMarkers.length = 0 := by
        have := congrArg List.length hnil
        simpa [dragMarkers] using this
      omega
    | clearDrawing => exact Or.inl rfl

/-- Witness for boundary_session_invariant at the initial state. -/
theorem boundary_session_invariant_witness :
    initialBoundaryState.boundaryPath = [] ∨
      (initialBoundaryState.cornerMarkers ≠ [] ∧
        initialBoundaryState.boundaryPath =
          initialBoundaryState.cornerMarkers ++ [initialBoundaryState.cornerMarkers.headI]) :=
  boundary_session_invariant areaLen initialBoundaryState BReachable.init

/-- Claim C2 is refuted on the code: AI detection with a five-coordinate
answer yields a reachable state whose corner list has length 5, neither
0 nor 4. -/
theorem boundary_session_five_corners :
    BReachable areaLen aiFiveState ∧ aiFiveState.cornerMarkers.length = 5 ∧
    ¬(aiFiveState.cornerMarkers.length = 0 ∨ aiFiveState.cornerMarkers.length = 4) := by
  refine ⟨?_, rfl, by decide⟩
  exact BReachable.step _ _ BReachable.init
    (BStep.aiDetect initialBoundaryState fiveCoords (by decide))

/-! ## C3: stored constraint areas -/

/-- Claim C3 (amended): every constraint created by the rebuild stores
the spherical area of its closed ring in square meters, with no
square-feet conversion applied; the square-feet conversion used by the
marker-drag display multiplies by 10.764 (not 10.7639) and rounds. -/
theorem rebuild_area_square_meters (A : List Coord → ℚ) (ca : ConstraintAnalysisData)
    (c : Constraint) (hc : c ∈ rebuildConstraints A ca) :
    c.area = A (closeRing c.coordinates) ∧
    (∀ markers, sqFtRounded A markers = jsRound (A markers * (10764 / 1000))) := by
  constructor
  · have h := rebuild_mem_spec A ca c hc
    rw [h.2.1]
    unfold calculatePolygonArea
    rw [if_neg]
    omega
  · intro markers
    rfl

/-- Witness for rebuild_area_square_meters at a concrete constraint. -/
theorem rebuild_area_square_meters_witness :
    propertyConstraint100.area = area100 (closeRing propertyConstraint100.coordinates) ∧
    (∀ markers, sqFtRounded area100 markers = jsRound (area100 markers * (10764 / 1000))) := by
  have hmem : propertyConstraint100 ∈ rebuildConstraints area100 caWithBoundary := by
    rw [show rebuildConstraints area100 caWithBoundary =
      [propertyConstraint100, structureConstraint100] from rfl]
    exact List.mem_cons_self _ _
  exact rebuild_area_square_meters area100 caWithBoundary propertyConstraint100 hmem

/-- Claim C3 is refuted on the code: the stored area of the rebuilt
property constraint equals the spherical area itself (100 under the
stand-in area function), not the spherical area multiplied by
10.7639. -/
theorem rebuild_area_not_sqft :
    (rebuildConstraints area100 caWithBoundary).headI.area = area100 (closeRing quadCoords) ∧
    area100 (closeRing quadCoords) = 100 ∧
    (100 : ℚ) ≠ 100 * (107639 / 10000) := by
  refine ⟨rfl, rfl, by norm_num⟩

/-! ## C4: failure responses of the vision service -/

/-- Claim C4 (amended): on a non-2xx response the constraint
orchestrator rejects with the fixed message, ignoring the error string
of the body, and the property-image orchestrator does not reject at
all: it resolves with the default result. -/
theorem orchestrator_failure_behavior (resp : FetchResponse) (h : resp.ok = false) :
    analyzeConstraintsResult resp = Except.error "Failed to analyze constraints" ∧
    analyzePropertyImageResult resp = defaultVisionResult := by
  constructor
  · unfold analyzeConstraintsResult
    rw [h]
    rfl
  · unfold analyzePropertyImageResult
    rw [h]
    rfl

/-- Witness for orchestrator_failure_behavior at a concrete failure
response. -/
theorem orchestrator_failure_behavior_witness :
    analyzeConstraintsResult failureResponse = Except.error "Failed to analyze constraints" ∧
    analyzePropertyImageResult failureResponse = defaultVisionResult :=
  orchestrator_failure_behavior failureResponse rfl

/-- Claim C4 is refuted on the code: for a failure body carrying the
error string, the surfaced message is the fixed string, not the
verbatim service error. -/
theorem orchestrator_error_not_verbatim :
    jsGet failureResponse.body ("error") = JsVal.str "quota exceeded" ∧
    analyzeConstraintsResult failureResponse = Except.error "Failed to analyze constraints" ∧
    ("Failed to analyze constraints" : String) ≠ "quota exceeded" ∧
    analyzePropertyImageResult failureResponse = defaultVisionResult := by
  refine ⟨rfl, rfl, by decide, rfl⟩

/-! ## C5: normalizer defaults -/

/-- Claim C5 (amended): when the optional fields are absent the
normalizer yields the empty array for structures, buildable areas and
also for setbacks; the setbacks default is the empty array, whose front
field is undefined rather than the number 0. -/
theorem normalizer_defaults (parsed : JsVal)
    (h1 : jsGet parsed ("structures") = JsVal.undef)
    (h2 : jsGet parsed ("buildable_areas") = JsVal.undef)
    (h3 : jsGet parsed ("buildableAreas") = JsVal.undef)
    (h4 : jsGet parsed ("setbacks") = JsVal.undef) :
    jsGet (processedOf parsed) ("structures") = JsVal.arr [] ∧
    jsGet (processedOf parsed) ("buildableAreas") = JsVal.arr [] ∧
    jsGet (processedOf parsed) ("setbacks") = JsVal.arr [] ∧
    jsGet (jsGet (processedOf parsed) ("setbacks")) ("front") = JsVal.undef := by
  unfold processedOf
  rw [h1, h2, h3, h4]
  refine ⟨rfl, rfl, rfl, rfl⟩

/-- Witness for normalizer_defaults at a concrete payload. -/
theorem normalizer_defaults_witness :
    jsGet (processedOf parsedNoOptionals) ("structures") = JsVal.arr [] ∧
    jsGet (processedOf parsedNoOptionals) ("buildableAreas") = JsVal.arr [] ∧
    jsGet (processedOf parsedNoOptionals) ("setbacks") = JsVal.arr [] ∧
    jsGet (jsGet (processedOf parsedNoOptionals) ("setbacks")) ("front") = JsVal.undef :=
  normalizer_defaults parsedNoOptionals rfl rfl rfl rfl

/-- Claim C5 is refuted on the code: an absent setbacks field yields the
empty array, whose front field is undefined, not the zero setbacks the
claim demands. -/
theorem normalizer_setbacks_not_zero :
    jsGet (processedOf parsedNoOptionals) ("setbacks") = JsVal.arr [] ∧
    jsGet (jsGet (processedOf parsedNoOptionals) ("setbacks")) ("front") = JsVal.undef ∧
    JsVal.undef ≠ JsVal.num 0 ∧
    jsGet (processedOf parsedNoOptionals) ("structures") = JsVal.arr [] :=
  ⟨rfl, rfl, by simp, rfl⟩

/-! ## C7: alternate aggregate precedence -/

/-- Claim C7 (amended): a parsed nonzero buildable-area value is the one
reported; the heuristic totalConstrainedArea * 0.6 is reported both when
no parsed numeric value exists and when the parsed value is 0, because
the JavaScript fallback treats 0 as falsy. -/
theorem alt_aggregate_precedence (s : String) (total : ℚ) :
    (∀ v : ℕ, altBuildableArea s = some v → v ≠ 0 →
      altAggregateReport s total = (v : ℚ)) ∧
    ((altBuildableArea s = none ∨ altBuildableArea s = some 0) →
      altAggregateReport s total = total * (6 / 10)) := by
  constructor
  · intro v hv hv0
    unfold altAggregateReport
    rw [hv]
    simp [hv0]
  · intro h
    unfold altAggregateReport
    rcases h with h | h <;> rw [h]
    rfl

/-- Witness for alt_aggregate_precedence at a concrete string. -/
theorem alt_aggregate_precedence_witness :
    altAggregateReport "Approximately 2500 sq ft" 100 = ((2500 : ℕ) : ℚ) :=
  (alt_aggregate_precedence "Approximately 2500 sq ft" 100).1 2500 rfl (by decide)

/-- Claim C7 is refuted on the code: a parsed buildable-area value of 0
is not reported; the heuristic is reported instead. -/
theorem alt_aggregate_zero_not_preferred :
    altBuildableArea "0 sq ft" = some 0 ∧
    altAggregateReport "0 sq ft" 1000 = 600 ∧ (600 : ℚ) ≠ 0 := by
  refine ⟨rfl, ?_, by norm_num⟩
  have h : altBuildableArea "0 sq ft" = some 0 := rfl
  unfold altAggregateReport
  rw [h]
  norm_num

/-! ## C8: footprint-to-ring conversion -/

/-- Claim C8 (amended): the StructureVisualizer conversion maps feet to
degrees with 1 foot = 1/364000 degree of latitude and scales longitude
by 1/cos(lat); the PropertyMap calculateBuildingPolygon call site
instead uses the flat constant 0.00000274 on both axes with no cosine
scaling. -/
theorem footprint_ring_conversion (cosDeg sinDeg : ℚ → ℚ) (pos center : Coord)
    (w l : ℚ) (hs : sinDeg 0 = 0) (hc : cosDeg 0 = 1) :
    getCorners cosDeg sinDeg pos w l 0 =
      [⟨pos.lat + (w / 2) / 364000, pos.lng - (l / 2) / (364000 * cosDeg pos.lat)⟩,
       ⟨pos.lat + (w / 2) / 364000, pos.lng + (l / 2) / (364000 * cosDeg pos.lat)⟩,
       ⟨pos.lat - (w / 2) / 364000, pos.lng + (l / 2) / (364000 * cosDeg pos.lat)⟩,
       ⟨pos.lat - (w / 2) / 364000, pos.lng - (l / 2) / (364000 * cosDeg pos.lat)⟩] ∧
    calculateBuildingPolygon cosDeg sinDeg center w l 0 =
      [⟨center.lat - w * (274 / 100000000) / 2, center.lng - l * (274 / 100000000) / 2⟩,
       ⟨center.lat - w * (274 / 100000000) / 2, center.lng + l * (274 / 100000000) / 2⟩,
       ⟨center.lat + w * (274 / 100000000) / 2, center.lng + l * (274 / 100000000) / 2⟩,
       ⟨center.lat + w * (274 / 100000000) / 2, center.lng - l * (274 / 100000000) / 2⟩,
       ⟨center.lat - w * (274 / 100000000) / 2, center.lng - l * (274 / 100000000) / 2⟩] := by
  constructor
  · unfold getCorners latFeetToDegrees lngFeetToDegrees
    norm_num
  · unfold calculateBuildingPolygon
    rw [hs, hc]
    simp only [List.map_cons, List.map_nil, List.cons_append, List.nil_append, List.headI,
      List.cons.injEq, Coord.mk.injEq, and_true]
    norm_num
    repeat' constructor
    all_goals ring

/-- Witness for footprint_ring_conversion at a concrete footprint. -/
theorem footprint_ring_conversion_witness :
    getCorners cosOne sinZero ⟨37, -122⟩ 40 60 0 =
      [⟨37 + (40 / 2) / 364000, -122 - (60 / 2) / (364000 * cosOne 37)⟩,
       ⟨37 + (40 / 2) / 364000, -122 + (60 / 2) / (364000 * cosOne 37)⟩,
       ⟨37 - (40 / 2) / 364000, -122 + (60 / 2) / (364000 * cosOne 37)⟩,
       ⟨37 - (40 / 2) / 364000, -122 - (60 / 2) / (364000 * cosOne 37)⟩] ∧
    calculateBuildingPolygon cosOne sinZero ⟨37, -122⟩ 40 60 0 =
      [⟨37 - 40 * (274 / 100000000) / 2, -122 - 60 * (274 / 100000000) / 2⟩,
       ⟨37 - 40 * (274 / 100000000) / 2, -122 + 60 * (274 / 100000000) / 2⟩,
       ⟨37 + 40 * (274 / 100000000) / 2, -122 + 60 * (274 / 100000000) / 2⟩,
       ⟨37 + 40 * (274 / 100000000) / 2, -122 - 60 * (274 / 100000000) / 2⟩,
       ⟨37 - 40 * (274 / 100000000) / 2, -122 - 60 * (274 / 100000000) / 2⟩] :=
  footprint_ring_conversion cosOne sinZero ⟨37, -122⟩ ⟨37, -122⟩ 40 60 rfl rfl

/-- Claim C8 is refuted on the code: the first corner produced by
calculateBuildingPolygon sits at a latitude offset of 0.00000274 degrees
per foot, which differs from the 1/364000 degrees per foot the claim
demands at every call site. -/
theorem building_polygon_constant_mismatch :
    (calculateBuildingPolygon cosOne sinZero ⟨37, -122⟩ 40 60 0).headI.lat
        = 37 - 40 * (274 / 100000000) / 2 ∧
    (37 - 40 * (274 / 100000000) / 2 : ℚ) ≠ 37 - (40 / 2) / 364000 := by
  constructor
  · unfold calculateBuildingPolygon
    simp only [cosOne, sinZero, List.map_cons, List.map_nil, List.cons_append, List.nil_append,
      List.headI]
    norm_num
  · norm_num

/-! ## C10: snake and camel key precedence -/

/-- Claim C10 (amended): when both key forms are present, the snake_case
value wins exactly when it is truthy; a non-null but falsy snake value
(0, empty string, false) loses to the camelCase value. -/
theorem normalizer_key_precedence (parsed : JsVal) :
    jsGet (processedOf parsed) ("propertyBoundary")
      = (if jsTruthy (jsGet parsed ("property_boundary"))
         then jsGet parsed ("property_boundary")
         else jsGet parsed ("propertyBoundary")) ∧
    jsGet (processedOf parsed) ("buildableAreas")
      = (if jsTruthy (jsGet parsed ("buildable_areas"))
         then jsGet parsed ("buildable_areas")
         else if jsTruthy (jsGet parsed ("buildableAreas"))
         then jsGet parsed ("buildableAreas")
         else JsVal.arr []) := by
  constructor
  · rfl
  · rfl

/-- Claim C10 is refuted on the code: with the snake key bound to the
non-null number 0 and the camel key bound to an object, the normalizer
output uses the camelCase value. -/
theorem normalizer_snake_nonnull_loses :
    jsGet parsedBothKeys ("property_boundary") = JsVal.num 0 ∧
    JsVal.num 0 ≠ JsVal.jsNull ∧ JsVal.num 0 ≠ JsVal.undef ∧
    jsGet (processedOf parsedBothKeys) ("propertyBoundary")
      = jsGet parsedBothKeys ("propertyBoundary") ∧
    jsGet parsedBothKeys ("propertyBoundary")
      = JsVal.obj [("coordinates", JsVal.arr [])] ∧
    jsGet parsedBothKeys ("propertyBoundary") ≠ JsVal.num 0 := by
  refine ⟨rfl, by simp, by simp, rfl, rfl, ?_⟩
  rw [show jsGet parsedBothKeys ("propertyBoundary") = JsVal.obj [("coordinates", JsVal.arr [])] from rfl]
  simp

/-! ## C6 lemmas -/

theorem parseVal_backtick (f : ℕ) (rest : List Char) : jsonVal f ('`' :: rest) = none := by
  cases f with
  | zero => rfl
  | succ f => simp [jsonVal, skipBlanks, isBlank]

theorem jsonParse_backtick (c : String) (l : List Char) (h : c.toList = '`' :: l) :
    jsonParse c = none := by
  unfold jsonParse
  rw [h, parseVal_backtick]

theorem dropToOpen_fence (x : List Char) :
    dropToOpen ("```json\n".toList ++ x) = dropToOpen x := by
  show dropToOpen ('`' :: '`' :: '`' :: 'j' :: 's' :: 'o' :: 'n' :: '\n' :: x) = dropToOpen x
  simp [dropToOpen]

theorem dropToOpen_open (t : List Char) : dropToOpen ('\x7b' :: t) = '\x7b' :: t := by
  simp [dropToOpen]

theorem keepToLastClose_calc (t rest : List Char) (htr : t.reverse = '\x7d' :: rest)
    (extra : List Char) (hextra : ∀ c ∈ extra, c ≠ '\x7d') :
    keepToLastClose ('\x7b' :: (t ++ extra)) = some ('\x7b' :: t) := by
  unfold keepToLastClose
  have hrev : ('\x7b' :: (t ++ extra)).reverse = extra.reverse ++ (t.reverse ++ ['\x7b']) := by
    simp
  rw [hrev, List.dropWhile_append]
  have hempty : (extra.reverse.dropWhile (fun c => !(c = '\x7d'))).isEmpty = true := by
    rw [List.isEmpty_iff, List.dropWhile_eq_nil_iff]
    intro x hx
    simp [hextra x (List.mem_reverse.mp hx)]
  rw [if_pos hempty, List.dropWhile_append, htr]
  have hstop : List.dropWhile (fun c => !(c = '\x7d')) ('\x7d' :: rest) = '\x7d' :: rest := by
    rw [List.dropWhile_cons_of_neg]
    simp
  rw [hstop]
  have ht : t = rest.reverse ++ ['\x7d'] := by
    have h2 := congrArg List.reverse htr
    simpa using h2
  simp [ht]

theorem extractGreedy_self (s : String) (t rest : List Char)
    (hs : s.toList = '\x7b' :: t) (htr : t.reverse = '\x7d' :: rest) :
    extractGreedy s = some s := by
  unfold extractGreedy
  rw [hs, dropToOpen_open]
  show Option.map String.mk (keepToLastClose ('\x7b' :: t)) = some s
  have hk : keepToLastClose ('\x7b' :: t) = some ('\x7b' :: t) := by
    have h := keepToLastClose_calc t rest htr [] (by simp)
    simpa using h
  rw [hk]
  show some (String.mk ('\x7b' :: t)) = some s
  rw [← hs]
  rfl

theorem extractGreedy_fenced (s : String) (t rest : List Char)
    (hs : s.toList = '\x7b' :: t) (htr : t.reverse = '\x7d' :: rest) :
    extractGreedy ("```json\n" ++ s ++ "\n```") = some s := by
  unfold extractGreedy
  have hcl : ("```json\n" ++ s ++ "\n```").toList
      = "```json\n".toList ++ (s.toList ++ "\n```".toList) := by
    show ("```json\n".toList ++ s.toList) ++ "\n```".toList
      = "```json\n".toList ++ (s.toList ++ "\n```".toList)
    rw [List.append_assoc]
  rw [hcl, dropToOpen_fence, hs]
  show (match dropToOpen ('\x7b' :: (t ++ "\n```".toList)) with
    | [] => none
    | c :: cs => (keepToLastClose (c :: cs)).map String.mk) = some s
  rw [dropToOpen_open]
  show Option.map String.mk (keepToLastClose ('\x7b' :: (t ++ "\n```".toList))) = some s
  rw [keepToLastClose_calc t rest htr ("\n```".toList) (by decide)]
  show some (String.mk ('\x7b' :: t)) = some s
  rw [← hs]
  rfl

theorem stripFenceL_fence (x : List Char) : stripFenceL ("```json\n".toList ++ x) = x := by
  unfold stripFenceL
  have h8 : (8 : ℕ) = ("```json\n".toList).length := rfl
  rw [h8, List.take_left, if_pos rfl, List.drop_left]

theorem stripFenceR_fence (x : List Char) : stripFenceR (x ++ "\n```".toList) = x := by
  unfold stripFenceR
  have hsuf : ("\n```".toList).isSuffixOf (x ++ "\n```".toList) = true := by
    rw [List.isSuffixOf_iff_suffix]
    exact List.suffix_append _ _
  rw [if_pos hsuf]
  have hrev : (x ++ "\n```".toList).reverse = ("\n```".toList).reverse ++ x.reverse := by
    simp
  rw [hrev]
  have h4 : (4 : ℕ) = (("\n```".toList).reverse).length := rfl
  rw [h4, List.drop_left]
  simp

theorem stripFence_fenced (s : String) :
    stripFence ("```json\n" ++ s ++ "\n```") = s := by
  unfold stripFence
  have hcl : ("```json\n" ++ s ++ "\n```").toList
      = "```json\n".toList ++ (s.toList ++ "\n```".toList) := by
    show ("```json\n".toList ++ s.toList) ++ "\n```".toList
      = "```json\n".toList ++ (s.toList ++ "\n```".toList)
    rw [List.append_assoc]
  rw [hcl, stripFenceL_fence, stripFenceR_fence]
  rfl

/-- Claim C6 (amended): a markdown-fenced JSON object body parses to the
same result as its unfenced equivalent (in both route variants), and the
main-route parsing fails only when direct parsing fails and JSON parsing
of the greedy first-brace-to-last-brace substring also fails; the
extraction is that greedy substring, not the first balanced brace
block. -/
theorem response_parsing (s : String) (t rest : List Char)
    (hs : s.toList = '\x7b' :: t) (htr : t.reverse = '\x7d' :: rest) :
    parseResponse ("```json\n" ++ s ++ "\n```") = parseResponse s ∧
    parseResponseAlt ("```json\n" ++ s ++ "\n```") = jsonParse s ∧
    (∀ content : String, parseResponse content = none ↔
      (jsonParse content = none ∧ (extractGreedy content).bind jsonParse = none)) := by
  refine ⟨?_, ?_, ?_⟩
  · have h1 : jsonParse ("```json\n" ++ s ++ "\n```") = none :=
      jsonParse_backtick _ ('`' :: '`' :: 'j' :: 's' :: 'o' :: 'n' :: '\n' ::
        (s.toList ++ "\n```".toList)) rfl
    have hfen : parseResponse ("```json\n" ++ s ++ "\n```") = jsonParse s := by
      unfold parseResponse
      rw [h1, extractGreedy_fenced s t rest hs htr]
    have hunf : parseResponse s = jsonParse s := by
      unfold parseResponse
      rw [extractGreedy_self s t rest hs htr]
      cases hj : jsonParse s with
      | some v => rfl
      | none => exact hj
    rw [hfen, hunf]
  · unfold parseResponseAlt
    rw [stripFence_fenced]
  · intro content
    unfold parseResponse
    cases hj : jsonParse content with
    | some v => simp
    | none =>
      cases he : extractGreedy content with
      | none => simp [he]
      | some sub => simp [he]

/-- Witness for response_parsing at a concrete JSON object body. -/
theorem response_parsing_witness :
    parseResponse ("```json\n" ++ sampleObjectText ++ "\n```") = parseResponse sampleObjectText ∧
    parseResponseAlt ("```json\n" ++ sampleObjectText ++ "\n```") = jsonParse sampleObjectText ∧
    (∀ content : String, parseResponse content = none ↔
      (jsonParse content = none ∧ (extractGreedy content).bind jsonParse = none)) :=
  response_parsing sampleObjectText ['"', 'a', '"', ':', '1', '\x7d'] ['1', ':', '"', 'a', '"']
    (by decide) (by decide)

/-- Claim C6 is refuted on the code: a body made of two JSON objects
separated by text fails the route parsing (the greedy substring spans
both objects and is not valid JSON) although the first balanced brace
block parses. -/
theorem response_parsing_not_balanced :
    parseResponse mixedContent = none ∧
    specParseResponse mixedContent = some (JsVal.obj [("a", JsVal.num 1)]) ∧
    specExtractBalanced mixedContent = some sampleObjectText :=
  ⟨rfl, rfl, rfl⟩
